/-
Verification of the hangups session/transport/synchronization core.

Shallow embedding of three source files:
  src/hangups/http_utils.py   (fetch: retrying HTTP transport)
  src/hangups/conversation.py (Conversation, ConversationList: store + sync)
  src/hangups/client.py       (Client: authenticated requests, bootstrap)

Timestamps are modelled as Nat (parsers.from_timestamp is an order
isomorphism from microsecond integers to datetime values, so comparisons
transfer unchanged).  Python dicts keyed by strings are modelled as
association lists with first-match lookup and in-place overwrite.
-/
import Mathlib

set_option linter.unusedVariables false

/-! ## Python dictionaries (string-keyed) -/

/-- Lookup in a string-keyed dict, first match wins. -/
def pyDictGet {α : Type} : List (String × α) → String → Option α
  | [], _ => none
  | (k2, v) :: rest, k => if k2 = k then some v else pyDictGet rest k

/-- Dict assignment: overwrite the existing binding, or append a new one. -/
def pyDictSet {α : Type} : List (String × α) → String → α → List (String × α)
  | [], k, v => [(k, v)]
  | (k2, v2) :: rest, k, v =>
      if k2 = k then (k, v) :: rest else (k2, v2) :: pyDictSet rest k v

/-! ## Python exceptions used by the embedded code -/

/-- The exception values raised by the embedded code paths.  `keyError` is
the builtin mapping-lookup error raised by dict access and by
Client._get_cookie; `valueError` is raised by the external decoders;
`hangupsError` and `networkError` are hangups.exceptions classes. -/
inductive PyError
  | keyError (msg : String)
  | indexError (msg : String)
  | typeError (msg : String)
  | valueError (msg : String)
  | hangupsError (msg : String)
  | networkError (msg : String)
deriving DecidableEq, Repr

/-! ## http_utils.fetch -/

/-- Outcome of one attempt of the aiohttp request + read inside fetch:
either a timeout, a connection-level error, or a received HTTP response. -/
inductive AttemptOutcome
  | timeout
  | connError (msg : String)
  | response (status : Nat) (body : String)
deriving DecidableEq, Repr

/-- http_utils.FetchResponse namedtuple. -/
structure FetchResponse where
  code : Nat
  body : String
deriving DecidableEq, Repr

/-- Result of http_utils.fetch.  `unbound` models the (unreachable for
MAX_RETRIES = 3) Python path where the loop body never ran and `res` would
be an unbound local. -/
inductive FetchResult
  | ok (resp : FetchResponse)
  | networkError (msg : String)
  | unbound
deriving DecidableEq, Repr

def MAX_RETRIES : Nat := 3

/-- The error message recorded by fetch for a failed attempt (None for a
received response, matching the `else: error_msg = None` branch). -/
def attemptError : AttemptOutcome → Option String
  | .timeout => some "Request timed out"
  | .connError e => some ("Request connection error: " ++ e)
  | .response _ _ => none

/-- The retry loop of http_utils.fetch.  `oracle i` is the outcome of the
attempt with retry_num = i; `i` is the current retry_num, `rem` the
remaining iterations of `for retry_num in range(MAX_RETRIES)`, and
`errMsg` the current value of error_msg.  Returns the result together
with the number of attempts actually made. -/
def fetchLoop (oracle : Nat → AttemptOutcome) :
    Nat → Nat → Option String → FetchResult × Nat
  | i, 0, errMsg =>
      (match errMsg with
       | some m => FetchResult.networkError m
       | none => FetchResult.unbound, i)
  | i, rem + 1, _errMsg =>
      match oracle i with
      | .timeout => fetchLoop oracle (i + 1) rem (some "Request timed out")
      | .connError e =>
          fetchLoop oracle (i + 1) rem (some ("Request connection error: " ++ e))
      | .response s b =>
          (if 200 < s ∨ s < 200 then
            FetchResult.networkError
              ("Request return unexpected status: " ++ toString s)
          else FetchResult.ok ⟨s, b⟩, i + 1)

/-- http_utils.fetch: run the retry loop from retry_num 0 with error_msg
None; on a received response check `res.status > 200 or res.status < 200`.
Also returns how many attempts were made. -/
def fetch (oracle : Nat → AttemptOutcome) : FetchResult × Nat :=
  fetchLoop oracle 0 MAX_RETRIES none

/-! ## conversation.py data model -/

/-- ClientEvent: the fields conversation.py reads.  The three payload
fields are optional; Conversation.add_event classifies by the first
populated one. -/
structure ClientEvent where
  conversation_id : String
  timestamp : Nat
  chat_message : Option Unit
  conversation_rename : Option Unit
  membership_change : Option Unit
deriving DecidableEq, Repr

/-- The subclass of ConversationEvent chosen by Conversation.add_event. -/
inductive ConvEventKind
  | chatMessageEvent
  | renameEvent
  | membershipChangeEvent
  | conversationEvent
deriving DecidableEq, Repr

/-- A ConversationEvent (or subclass) instance: classification plus the
wrapped ClientEvent. -/
structure ConversationEvent where
  kind : ConvEventKind
  event : ClientEvent
deriving DecidableEq, Repr

/-- ClientConversation metadata: the fields conversation.py reads. -/
structure ClientConversation where
  conversation_id : String
  name : Option String
  sort_timestamp : Nat
  participant_data : List String
deriving DecidableEq, Repr

/-- A Conversation: current metadata snapshot plus the append-only event
log `_events`. -/
structure Conversation where
  conversation : ClientConversation
  events : List ConversationEvent
deriving DecidableEq, Repr

/-- The classification performed by Conversation.add_event: chat_message,
then conversation_rename, then membership_change, else the generic
ConversationEvent. -/
def Conversation.classify (e : ClientEvent) : ConversationEvent :=
  if e.chat_message.isSome then ⟨.chatMessageEvent, e⟩
  else if e.conversation_rename.isSome then ⟨.renameEvent, e⟩
  else if e.membership_change.isSome then ⟨.membershipChangeEvent, e⟩
  else ⟨.conversationEvent, e⟩

/-- Conversation.add_event: classify, append to `_events`, and return the
new ConversationEvent. -/
def Conversation.add_event (c : Conversation) (e : ClientEvent) :
    Conversation × ConversationEvent :=
  let ce := Conversation.classify e
  ({ c with events := c.events ++ [ce] }, ce)

/-- Conversation.__init__: store the ClientConversation and add_event each
of client_events in order, starting from an empty log. -/
def Conversation.init (cc : ClientConversation) (client_events : List ClientEvent) :
    Conversation :=
  client_events.foldl (fun c e => (c.add_event e).1) ⟨cc, []⟩

/-- Conversation.update_conversation: replace the metadata wholesale. -/
def Conversation.update_conversation (c : Conversation) (cc : ClientConversation) :
    Conversation :=
  { c with conversation := cc }

/-- ClientSetTypingNotification: the fields conversation.py reads. -/
structure ClientSetTypingNotification where
  conversation_id : String
  status : Nat
deriving DecidableEq, Repr

/-- ClientStateUpdate as consumed by ConversationList._on_state_update.
`event_notification` holds state_update.event_notification.event. -/
structure ClientStateUpdate where
  client_conversation : Option ClientConversation
  typing_notification : Option ClientSetTypingNotification
  event_notification : Option ClientEvent
deriving DecidableEq, Repr

/-- One entry of a ClientSyncAllNewEventsResponse.conversation_state. -/
structure ClientConversationState where
  conversation_id : String
  conversation : ClientConversation
  event : List ClientEvent
deriving DecidableEq, Repr

/-- ClientSyncAllNewEventsResponse: the field _sync iterates over. -/
structure SyncResponse where
  conversation_state : List ClientConversationState
deriving DecidableEq, Repr

/-- The mutable state of a ConversationList: the conversation dict, the
sync watermark `_sync_timestamp`, and (for observability of publishing)
the sequence of ConversationEvents fired on ConversationList.on_event and
the conversation ids for which typing notifications were fired. -/
structure ConversationList where
  conv_dict : List (String × Conversation)
  sync_timestamp : Nat
  fired : List ConversationEvent
  typing_fired : List String
deriving DecidableEq, Repr

/-- ConversationList.add_conversation: build a Conversation from the
ClientConversation and events and store it under its id. -/
def ConversationList.add_conversation (st : ConversationList)
    (cc : ClientConversation) (client_events : List ClientEvent) :
    ConversationList :=
  { st with conv_dict :=
      pyDictSet st.conv_dict cc.conversation_id (Conversation.init cc client_events) }

/-- ConversationList._on_client_event: set `_sync_timestamp` to the event
timestamp unconditionally, then look up the conversation; on KeyError log
and drop, otherwise add_event and fire on_event (recorded in `fired`). -/
def ConversationList.on_client_event (st : ConversationList) (e : ClientEvent) :
    ConversationList :=
  let st1 := { st with sync_timestamp := e.timestamp }
  match pyDictGet st1.conv_dict e.conversation_id with
  | none => st1
  | some conv =>
      let r := conv.add_event e
      { st1 with
          conv_dict := pyDictSet st1.conv_dict e.conversation_id r.1,
          fired := st1.fired ++ [r.2] }

/-- ConversationList._handle_client_conversation: update the metadata of a
known conversation wholesale, otherwise add a new conversation with an
empty event list. -/
def ConversationList.handle_client_conversation (st : ConversationList)
    (cc : ClientConversation) : ConversationList :=
  match pyDictGet st.conv_dict cc.conversation_id with
  | some conv =>
      { st with conv_dict :=
          pyDictSet st.conv_dict cc.conversation_id (conv.update_conversation cc) }
  | none => st.add_conversation cc []

/-- ConversationList._handle_set_typing_notification: fire typing events
for a known conversation (recorded in `typing_fired`), drop otherwise;
the watermark and all logs are untouched. -/
def ConversationList.handle_set_typing_notification (st : ConversationList)
    (tn : ClientSetTypingNotification) : ConversationList :=
  match pyDictGet st.conv_dict tn.conversation_id with
  | some _ => { st with typing_fired := st.typing_fired ++ [tn.conversation_id] }
  | none => st

/-- ConversationList._on_state_update: process the populated branches in
source order: client_conversation, then typing_notification, then
event_notification. -/
def ConversationList.on_state_update (st : ConversationList)
    (su : ClientStateUpdate) : ConversationList :=
  let st1 := match su.client_conversation with
    | some cc => st.handle_client_conversation cc
    | none => st
  let st2 := match su.typing_notification with
    | some tn => st1.handle_set_typing_notification tn
    | none => st1
  match su.event_notification with
  | some e => st2.on_client_event e
  | none => st2

/-- One iteration of the inner event loop of ConversationList._sync for a
known conversation: the idempotence filter `timestamp > self._sync_timestamp`
(against the current, not call-time, watermark) guarding _on_client_event. -/
def ConversationList.syncStep (s : ConversationList) (e : ClientEvent) :
    ConversationList :=
  if s.sync_timestamp < e.timestamp then s.on_client_event e else s

/-- The per-conversation-state body of ConversationList._sync (success
path): if the conversation is known, replace its metadata wholesale and
route each listed event whose timestamp is strictly greater than the
current `_sync_timestamp` through _on_client_event; if unknown, create
the conversation fresh with the full event list. -/
def ConversationList.sync_conv_state (st : ConversationList)
    (cs : ClientConversationState) : ConversationList :=
  match pyDictGet st.conv_dict cs.conversation_id with
  | some conv =>
      let newConv := conv.update_conversation cs.conversation
      let st1 :=
        { st with conv_dict := pyDictSet st.conv_dict cs.conversation_id newConv }
      cs.event.foldl ConversationList.syncStep st1
  | none => st.add_conversation cs.conversation cs.event

/-- ConversationList._sync applied to a successfully received and
status-checked ClientSyncAllNewEventsResponse: process each returned
conversation state in order. -/
def ConversationList.sync_apply (st : ConversationList) (res : SyncResponse) :
    ConversationList :=
  res.conversation_state.foldl ConversationList.sync_conv_state st

/-- ConversationList.__init__: seed the store from the initial
conversation states and set the initial watermark. -/
def ConversationList.seed (conv_states : List ClientConversationState)
    (sync_timestamp : Nat) : ConversationList :=
  conv_states.foldl
    (fun st cs => st.add_conversation cs.conversation cs.event)
    ⟨[], sync_timestamp, [], []⟩

/-- The event log of the conversation with the given id ([] if absent). -/
def ConversationList.eventsOf (st : ConversationList) (cid : String) :
    List ConversationEvent :=
  match pyDictGet st.conv_dict cid with
  | some c => c.events
  | none => []

/-- Number of events with the given timestamp in a log. -/
def countTs (l : List ConversationEvent) (t : Nat) : Nat :=
  (l.filter (fun ce => ce.event.timestamp = t)).length

/-! ## Specification-side helpers for the resync filter -/

/-- The sublist of events that the resync loop of a known conversation
actually routes through the event-notification branch: exactly the
running-maximum record setters above the starting watermark `w`. -/
def recordFilter (w : Nat) : List ClientEvent → List ClientEvent
  | [] => []
  | e :: es =>
      if w < e.timestamp then e :: recordFilter e.timestamp es
      else recordFilter w es

/-- Running maximum of a starting watermark and a list of timestamps. -/
def foldTsMax (w : Nat) (l : List ClientEvent) : Nat :=
  l.foldl (fun a e => max a e.timestamp) w

/-! ## client.py: cookies and authenticated requests -/

/-- The five session cookies required by Client._request. -/
def required_cookies : List String := ["SAPISID", "HSID", "SSID", "APISID", "SID"]

/-- Client._get_cookie: return the cookie or raise KeyError naming it
(the source message quotes the name: Cookie <name> is required). -/
def Client.get_cookie (cookies : List (String × String)) (name : String) :
    Except PyError String :=
  match pyDictGet cookies name with
  | some v => Except.ok v
  | none => Except.error (PyError.keyError ("Cookie " ++ name ++ " is required"))

/-- Client._get_authorization_header: reads the SAPISID cookie; the
timestamp and SHA-1 digest are elided since only the cookie access can
fail. -/
def Client.get_authorization_header (cookies : List (String × String)) :
    Except PyError String := do
  let sapisid ← Client.get_cookie cookies "SAPISID"
  Except.ok ("SAPISIDHASH " ++ sapisid)

/-- Client._request: build the authorization header (reads SAPISID), then
gather the five required cookies in order (the dict comprehension over
required_cookies, unrolled), and only then perform the network fetch.
Raised KeyErrors propagate; fetch failures become NetworkError. -/
def Client.request (cookies : List (String × String))
    (oracle : Nat → AttemptOutcome) : Except PyError FetchResponse := do
  let _auth ← Client.get_authorization_header cookies
  let _c1 ← Client.get_cookie cookies "SAPISID"
  let _c2 ← Client.get_cookie cookies "HSID"
  let _c3 ← Client.get_cookie cookies "SSID"
  let _c4 ← Client.get_cookie cookies "APISID"
  let _c5 ← Client.get_cookie cookies "SID"
  match fetch oracle with
  | (.ok r, _) => Except.ok r
  | (.networkError m, _) => Except.error (PyError.networkError m)
  | (.unbound, _) => Except.error (PyError.valueError "unbound local")

/-! ## client.py: _initialize_chat (bootstrap extraction) -/

/-- A decoded JavaScript value from the bootstrap document. -/
inductive JsVal
  | int (n : Int)
  | str (s : String)
  | null
  | arr (xs : List JsVal)

/-- Python dict access data_dict[k]: KeyError when absent. -/
def jsGetKey (dd : List (String × JsVal)) (k : String) : Except PyError JsVal :=
  match pyDictGet dd k with
  | some v => Except.ok v
  | none => Except.error (PyError.keyError k)

/-- Python index access v[i] on a decoded value: IndexError past the end,
TypeError on a non-list. -/
def jsIdx (v : JsVal) (i : Nat) : Except PyError JsVal :=
  match v with
  | .arr xs =>
      match xs.get? i with
      | some x => Except.ok x
      | none => Except.error (PyError.indexError "list index out of range")
  | _ => Except.error (PyError.typeError "value is not subscriptable")

/-- A fixed positional path data_dict[k][i1][i2]... into the decoded
structures. -/
def jsPath (dd : List (String × JsVal)) (k : String) (is : List Nat) :
    Except PyError JsVal := do
  let v0 ← jsGetKey dd k
  is.foldlM jsIdx v0

/-- parsers.from_timestamp on a decoded value: requires an integer
(microsecond timestamp); order-preserving, so modelled as the identity. -/
def from_timestamp (v : JsVal) : Except PyError Int :=
  match v with
  | .int n => Except.ok n
  | _ => Except.error (PyError.typeError "timestamp is not an integer")

/-- The required values extracted positionally by Client._initialize_chat. -/
structure RequiredChatValues where
  api_key : JsVal
  header_date : JsVal
  header_version : JsVal
  header_id : JsVal
  channel_path : JsVal
  clid : JsVal
  channel_ec_param : JsVal
  channel_prop_param : JsVal
  sync_timestamp : Int

/-- The required positional extraction block of Client._initialize_chat
(the try body): note the snapshot watermark is read from namespace ds:21,
position [0][1][4]. -/
def extractRequired (dd : List (String × JsVal)) :
    Except PyError RequiredChatValues := do
  let api_key ← jsPath dd "ds:7" [0, 2]
  let header_date ← jsPath dd "ds:2" [0, 4]
  let header_version ← jsPath dd "ds:2" [0, 6]
  let header_id ← jsPath dd "ds:4" [0, 7]
  let channel_path ← jsPath dd "ds:4" [0, 1]
  let clid ← jsPath dd "ds:4" [0, 7]
  let channel_ec_param ← jsPath dd "ds:4" [0, 4]
  let channel_prop_param ← jsPath dd "ds:4" [0, 5]
  let tsv ← jsPath dd "ds:21" [0, 1, 4]
  let sync_timestamp ← from_timestamp tsv
  Except.ok ⟨api_key, header_date, header_version, header_id, channel_path,
             clid, channel_ec_param, channel_prop_param, sync_timestamp⟩

/-- INITIAL_CLIENT_ENTITIES schema result: the top-level entity list plus
the five grouped sub-lists (each group already projected to its entity
values). -/
structure ClientEntities where
  entities : List Nat
  group1 : List Nat
  group2 : List Nat
  group3 : List Nat
  group4 : List Nat
  group5 : List Nat
deriving DecidableEq, Repr

/-- client.InitialData namedtuple. -/
structure InitialData where
  conversation_states : List ClientConversationState
  self_entity : Nat
  entities : List Nat
  conversation_participants : List String
  sync_timestamp : Int

/-- Client._initialize_chat on an already-decoded data_dict.  The three
external schema decoders are passed as oracles; a decoder failure is a
ValueError.  The required block converts KeyError to HangupsError; the
self-info and conversation-state decodes are fatal; the entity decode is
optional: on ValueError the entity set stays empty. -/
def Client.init_chat (dd : List (String × JsVal))
    (selfParse : JsVal → Except String Nat)
    (convParse : JsVal → Except String (List ClientConversationState))
    (entParse : JsVal → Except String ClientEntities) :
    Except PyError InitialData := do
  let req ← (match extractRequired dd with
    | .error (PyError.keyError m) =>
        Except.error (PyError.hangupsError
          ("Failed to get initialize chat value: " ++ m))
    | .error e => Except.error e
    | .ok r => Except.ok r)
  let v200 ← jsPath dd "ds:20" [0]
  let self_entity ← (match selfParse v200 with
    | .ok s => Except.ok s
    | .error m => Except.error (PyError.valueError m))
  let v1903 ← jsPath dd "ds:19" [0, 3]
  let conv_states ← (match convParse v1903 with
    | .ok cs => Except.ok cs
    | .error m => Except.error (PyError.valueError m))
  let conv_parts := conv_states.foldl
    (fun acc cs => acc ++ cs.conversation.participant_data) []
  let v210 ← jsPath dd "ds:21" [0]
  let entities := match entParse v210 with
    | .error _ => []
    | .ok es => es.entities ++ es.group1 ++ es.group2 ++ es.group3
                  ++ es.group4 ++ es.group5
  Except.ok ⟨conv_states, self_entity, entities, conv_parts, req.sync_timestamp⟩

/-! ## Helper lemmas: dictionaries -/

theorem pyDictGet_set_eq {α : Type} (d : List (String × α)) (k : String) (v : α) :
    pyDictGet (pyDictSet d k v) k = some v := by
  induction d with
  | nil => simp [pyDictGet, pyDictSet]
  | cons p rest ih =>
      by_cases h : p.1 = k
      · simp [pyDictSet, h, pyDictGet]
      · simp [pyDictSet, h, pyDictGet, ih]

theorem pyDictGet_set_ne {α : Type} (d : List (String × α)) (k k2 : String) (v : α)
    (h : k2 ≠ k) : pyDictGet (pyDictSet d k v) k2 = pyDictGet d k2 := by
  induction d with
  | nil => simp [pyDictGet, pyDictSet, Ne.symm h]
  | cons p rest ih =>
      by_cases hp : p.1 = k
      · subst hp
        simp [pyDictSet, pyDictGet, Ne.symm h]
      · simp [pyDictSet, hp, pyDictGet, ih]

theorem pyDictGet_set_isSome_mono {α : Type} (d : List (String × α))
    (k k2 : String) (v : α) (h : (pyDictGet d k2).isSome) :
    (pyDictGet (pyDictSet d k v) k2).isSome := by
  by_cases hk : k2 = k
  · subst hk; simp [pyDictGet_set_eq]
  · rwa [pyDictGet_set_ne d k k2 v hk]

/-! ## Helper lemmas: the push event-notification branch -/

theorem on_client_event_unknown (st : ConversationList) (e : ClientEvent)
    (h : pyDictGet st.conv_dict e.conversation_id = none) :
    st.on_client_event e = { st with sync_timestamp := e.timestamp } := by
  simp [ConversationList.on_client_event, h]

theorem on_client_event_known (st : ConversationList) (e : ClientEvent)
    (conv : Conversation)
    (h : pyDictGet st.conv_dict e.conversation_id = some conv) :
    st.on_client_event e =
      { st with
          sync_timestamp := e.timestamp,
          conv_dict := pyDictSet st.conv_dict e.conversation_id
            (conv.add_event e).1,
          fired := st.fired ++ [(conv.add_event e).2] } := by
  simp [ConversationList.on_client_event, h]

theorem on_client_event_sync_timestamp (st : ConversationList) (e : ClientEvent) :
    (st.on_client_event e).sync_timestamp = e.timestamp := by
  cases h : pyDictGet st.conv_dict e.conversation_id with
  | none => rw [on_client_event_unknown st e h]
  | some conv => rw [on_client_event_known st e conv h]

theorem on_client_event_keys_mono (st : ConversationList) (e : ClientEvent)
    (k : String) (h : (pyDictGet st.conv_dict k).isSome) :
    (pyDictGet (st.on_client_event e).conv_dict k).isSome := by
  cases hg : pyDictGet st.conv_dict e.conversation_id with
  | none => rw [on_client_event_unknown st e hg]; exact h
  | some conv =>
      rw [on_client_event_known st e conv hg]
      exact pyDictGet_set_isSome_mono _ _ _ _ h

theorem eventsOf_on_client_event_known (st : ConversationList) (e : ClientEvent)
    (conv : Conversation)
    (h : pyDictGet st.conv_dict e.conversation_id = some conv) :
    (st.on_client_event e).eventsOf e.conversation_id
      = st.eventsOf e.conversation_id ++ [Conversation.classify e] := by
  rw [on_client_event_known st e conv h]
  simp [ConversationList.eventsOf, pyDictGet_set_eq, h, Conversation.add_event]

theorem eventsOf_on_client_event_other (st : ConversationList) (e : ClientEvent)
    (cid : String) (h : cid ≠ e.conversation_id) :
    (st.on_client_event e).eventsOf cid = st.eventsOf cid := by
  cases hg : pyDictGet st.conv_dict e.conversation_id with
  | none => rw [on_client_event_unknown st e hg]; simp [ConversationList.eventsOf]
  | some conv =>
      rw [on_client_event_known st e conv hg]
      simp [ConversationList.eventsOf, pyDictGet_set_ne _ _ _ _ h]

/-! ## Helper lemmas: the resync inner event loop -/

theorem syncFold_wm (events : List ClientEvent) :
    ∀ st : ConversationList,
      st.sync_timestamp ≤ (events.foldl ConversationList.syncStep st).sync_timestamp
      ∧ ∀ e ∈ events,
          e.timestamp ≤ (events.foldl ConversationList.syncStep st).sync_timestamp := by
  induction events with
  | nil => intro st; simp
  | cons e es ih =>
      intro st
      by_cases hg : st.sync_timestamp < e.timestamp
      · have hstep : ConversationList.syncStep st e = st.on_client_event e := by
          simp [ConversationList.syncStep, hg]
        have hwm : (st.on_client_event e).sync_timestamp = e.timestamp :=
          on_client_event_sync_timestamp st e
        obtain ⟨ihmono, ihall⟩ := ih (st.on_client_event e)
        refine ⟨?_, ?_⟩
        · simp only [List.foldl_cons, hstep]
          omega
        · intro x hx
          rcases List.mem_cons.mp hx with rfl | hx2
          · simp only [List.foldl_cons, hstep]
            omega
          · simp only [List.foldl_cons, hstep]
            exact ihall x hx2
      · have hstep : ConversationList.syncStep st e = st := by
          simp [ConversationList.syncStep, hg]
        obtain ⟨ihmono, ihall⟩ := ih st
        refine ⟨?_, ?_⟩
        · simp only [List.foldl_cons, hstep]
          exact ihmono
        · intro x hx
          rcases List.mem_cons.mp hx with rfl | hx2
          · simp only [List.foldl_cons, hstep]
            omega
          · simp only [List.foldl_cons, hstep]
            exact ihall x hx2

theorem syncFold_noop (events : List ClientEvent) (st : ConversationList)
    (h : ∀ e ∈ events, e.timestamp ≤ st.sync_timestamp) :
    events.foldl ConversationList.syncStep st = st := by
  induction events with
  | nil => simp
  | cons e es ih =>
      have he : e.timestamp ≤ st.sync_timestamp := h e (by simp)
      have hstep : ConversationList.syncStep st e = st := by
        simp [ConversationList.syncStep]
        omega
      simp only [List.foldl_cons, hstep]
      exact ih (fun x hx => h x (List.mem_cons_of_mem _ hx))

theorem syncFold_keys_mono (events : List ClientEvent) :
    ∀ (st : ConversationList) (k : String),
      (pyDictGet st.conv_dict k).isSome →
      (pyDictGet (events.foldl ConversationList.syncStep st).conv_dict k).isSome := by
  induction events with
  | nil => intro st k h; simpa
  | cons e es ih =>
      intro st k h
      simp only [List.foldl_cons]
      apply ih
      unfold ConversationList.syncStep
      by_cases hg : st.sync_timestamp < e.timestamp
      · simpa [hg] using on_client_event_keys_mono st e k h
      · simpa [hg]

theorem foldTsMax_le (w : Nat) (l : List ClientEvent) :
    w ≤ foldTsMax w l ∧ ∀ e ∈ l, e.timestamp ≤ foldTsMax w l := by
  induction l generalizing w with
  | nil => simp [foldTsMax]
  | cons e es ih =>
      obtain ⟨h1, h2⟩ := ih (max w e.timestamp)
      refine ⟨?_, ?_⟩
      · calc w ≤ max w e.timestamp := Nat.le_max_left _ _
          _ ≤ foldTsMax (max w e.timestamp) es := h1
          _ = foldTsMax w (e :: es) := rfl
      · intro x hx
        rcases List.mem_cons.mp hx with rfl | hx2
        · calc x.timestamp ≤ max w x.timestamp := Nat.le_max_right _ _
            _ ≤ foldTsMax (max w x.timestamp) es := (ih (max w x.timestamp)).1
            _ = foldTsMax w (x :: es) := rfl
        · exact h2 x hx2

theorem foldTsMax_lt_iff (l : List ClientEvent) :
    ∀ (w t : Nat), foldTsMax w l < t ↔ w < t ∧ ∀ e ∈ l, e.timestamp < t := by
  induction l with
  | nil => intro w t; simp [foldTsMax]
  | cons e es ih =>
      intro w t
      have : foldTsMax w (e :: es) = foldTsMax (max w e.timestamp) es := rfl
      rw [this, ih]
      constructor
      · rintro ⟨h1, h2⟩
        refine ⟨?_, ?_⟩
        · omega
        · intro x hx
          rcases List.mem_cons.mp hx with rfl | hx2
          · omega
          · exact h2 x hx2
      · rintro ⟨h1, h2⟩
        have he : e.timestamp < t := h2 e (by simp)
        exact ⟨by omega, fun x hx => h2 x (List.mem_cons_of_mem _ hx)⟩

theorem recordFilter_append_single (l : List ClientEvent) :
    ∀ (w : Nat) (e : ClientEvent),
      recordFilter w (l ++ [e])
        = recordFilter w l
            ++ (if foldTsMax w l < e.timestamp then [e] else []) := by
  induction l with
  | nil => intro w e; simp [recordFilter, foldTsMax]
  | cons a l2 ih =>
      intro w e
      by_cases hg : w < a.timestamp
      · have hmax : max w a.timestamp = a.timestamp := Nat.max_eq_right (by omega)
        have hfold : foldTsMax w (a :: l2) = foldTsMax a.timestamp l2 := by
          show foldTsMax (max w a.timestamp) l2 = _
          rw [hmax]
        simp only [List.cons_append, recordFilter, hg, if_true, hfold]
        exact congrArg (List.cons a) (ih a.timestamp e)
      · have hmax : max w a.timestamp = w := Nat.max_eq_left (by omega)
        have hfold : foldTsMax w (a :: l2) = foldTsMax w l2 := by
          show foldTsMax (max w a.timestamp) l2 = _
          rw [hmax]
        simp only [List.cons_append, recordFilter, hg, if_false, hfold]
        exact ih w e

theorem add_event_snd (conv : Conversation) (e : ClientEvent) :
    (conv.add_event e).2 = Conversation.classify e := rfl

theorem syncFold_fired (events : List ClientEvent) :
    ∀ (st : ConversationList) (cid : String),
      (pyDictGet st.conv_dict cid).isSome →
      (∀ e ∈ events, e.conversation_id = cid) →
      (events.foldl ConversationList.syncStep st).fired
          = st.fired
            ++ (recordFilter st.sync_timestamp events).map Conversation.classify
      ∧ (events.foldl ConversationList.syncStep st).sync_timestamp
          = foldTsMax st.sync_timestamp events := by
  induction events with
  | nil => intro st cid h1 h2; simp [recordFilter, foldTsMax]
  | cons e es ih =>
      intro st cid h1 h2
      have hecid : e.conversation_id = cid := h2 e (by simp)
      by_cases hg : st.sync_timestamp < e.timestamp
      · obtain ⟨conv, hconv⟩ := Option.isSome_iff_exists.mp (hecid ▸ h1)
        have hstep : ConversationList.syncStep st e = st.on_client_event e := by
          simp [ConversationList.syncStep, hg]
        have hoce := on_client_event_known st e conv hconv
        have hkeys : (pyDictGet (st.on_client_event e).conv_dict cid).isSome :=
          on_client_event_keys_mono st e cid h1
        obtain ⟨ihf, ihw⟩ := ih (st.on_client_event e) cid hkeys
          (fun x hx => h2 x (List.mem_cons_of_mem _ hx))
        have hwm : (st.on_client_event e).sync_timestamp = e.timestamp :=
          on_client_event_sync_timestamp st e
        have hfired : (st.on_client_event e).fired
            = st.fired ++ [Conversation.classify e] := by
          rw [hoce]; simp [add_event_snd]
        constructor
        · simp only [List.foldl_cons, hstep, ihf, hwm, hfired]
          have hrf : recordFilter st.sync_timestamp (e :: es)
              = e :: recordFilter e.timestamp es := by
            simp [recordFilter, hg]
          rw [hrf]
          simp
        · simp only [List.foldl_cons, hstep, ihw, hwm]
          have : foldTsMax st.sync_timestamp (e :: es)
              = foldTsMax e.timestamp es := by
            show foldTsMax (max st.sync_timestamp e.timestamp) es = _
            rw [Nat.max_eq_right (by omega)]
          rw [this]
      · have hstep : ConversationList.syncStep st e = st := by
          simp [ConversationList.syncStep, hg]
        obtain ⟨ihf, ihw⟩ := ih st cid h1
          (fun x hx => h2 x (List.mem_cons_of_mem _ hx))
        constructor
        · simp only [List.foldl_cons, hstep, ihf]
          have hrf : recordFilter st.sync_timestamp (e :: es)
              = recordFilter st.sync_timestamp es := by
            simp [recordFilter, hg]
          rw [hrf]
        · simp only [List.foldl_cons, hstep, ihw]
          have : foldTsMax st.sync_timestamp (e :: es)
              = foldTsMax st.sync_timestamp es := by
            show foldTsMax (max st.sync_timestamp e.timestamp) es = _
            rw [Nat.max_eq_left (by omega)]
          rw [this]

/-! ## Helper lemmas: sync_conv_state and sync_apply -/

theorem sync_conv_state_known (st : ConversationList)
    (cs : ClientConversationState) (conv : Conversation)
    (h : pyDictGet st.conv_dict cs.conversation_id = some conv) :
    st.sync_conv_state cs
      = cs.event.foldl ConversationList.syncStep
          { st with conv_dict := pyDictSet st.conv_dict cs.conversation_id (conv.update_conversation cs.conversation) } := by
  simp [ConversationList.sync_conv_state, h]

theorem sync_conv_state_unknown (st : ConversationList)
    (cs : ClientConversationState)
    (h : pyDictGet st.conv_dict cs.conversation_id = none) :
    st.sync_conv_state cs = st.add_conversation cs.conversation cs.event := by
  simp [ConversationList.sync_conv_state, h]

theorem sync_conv_state_wm_mono (st : ConversationList)
    (cs : ClientConversationState) :
    st.sync_timestamp ≤ (st.sync_conv_state cs).sync_timestamp := by
  cases h : pyDictGet st.conv_dict cs.conversation_id with
  | none =>
      rw [sync_conv_state_unknown st cs h]
      exact Nat.le_refl _
  | some conv =>
      rw [sync_conv_state_known st cs conv h]
      exact (syncFold_wm cs.event
        { st with conv_dict := pyDictSet st.conv_dict cs.conversation_id (conv.update_conversation cs.conversation) }).1

theorem sync_conv_state_keys_mono (st : ConversationList)
    (cs : ClientConversationState) (k : String)
    (h : (pyDictGet st.conv_dict k).isSome) :
    (pyDictGet (st.sync_conv_state cs).conv_dict k).isSome := by
  cases hg : pyDictGet st.conv_dict cs.conversation_id with
  | none =>
      rw [sync_conv_state_unknown st cs hg]
      exact pyDictGet_set_isSome_mono _ _ _ _ h
  | some conv =>
      rw [sync_conv_state_known st cs conv hg]
      exact syncFold_keys_mono cs.event _ k (pyDictGet_set_isSome_mono _ _ _ _ h)

theorem sync_conv_state_events_bound (st : ConversationList)
    (cs : ClientConversationState) (conv : Conversation)
    (h : pyDictGet st.conv_dict cs.conversation_id = some conv) :
    ∀ e ∈ cs.event, e.timestamp ≤ (st.sync_conv_state cs).sync_timestamp := by
  rw [sync_conv_state_known st cs conv h]
  exact (syncFold_wm cs.event
    { st with conv_dict := pyDictSet st.conv_dict cs.conversation_id (conv.update_conversation cs.conversation) }).2

theorem syncApplyFold_wm_mono (css : List ClientConversationState) :
    ∀ st : ConversationList,
      st.sync_timestamp
        ≤ (css.foldl ConversationList.sync_conv_state st).sync_timestamp := by
  induction css with
  | nil => intro st; simp
  | cons cs rest ih =>
      intro st
      calc st.sync_timestamp ≤ (st.sync_conv_state cs).sync_timestamp :=
            sync_conv_state_wm_mono st cs
        _ ≤ _ := by simpa using ih (st.sync_conv_state cs)

theorem syncApplyFold_keys_mono (css : List ClientConversationState) :
    ∀ (st : ConversationList) (k : String),
      (pyDictGet st.conv_dict k).isSome →
      (pyDictGet (css.foldl ConversationList.sync_conv_state st).conv_dict k).isSome := by
  induction css with
  | nil => intro st k h; simpa
  | cons cs rest ih =>
      intro st k h
      simpa using ih (st.sync_conv_state cs) k (sync_conv_state_keys_mono st cs k h)

theorem syncApplyFold_bound (css : List ClientConversationState) :
    ∀ st : ConversationList,
      (∀ cs ∈ css, (pyDictGet st.conv_dict cs.conversation_id).isSome) →
      ∀ cs ∈ css, ∀ e ∈ cs.event,
        e.timestamp ≤ (css.foldl ConversationList.sync_conv_state st).sync_timestamp := by
  induction css with
  | nil => intro st h cs hcs; simp at hcs
  | cons c rest ih =>
      intro st h cs hcs e he
      rcases List.mem_cons.mp hcs with rfl | hcs2
      · obtain ⟨conv, hconv⟩ :=
          Option.isSome_iff_exists.mp (h cs (by simp))
        have h1 : e.timestamp ≤ (st.sync_conv_state cs).sync_timestamp :=
          sync_conv_state_events_bound st cs conv hconv e he
        have h2 := syncApplyFold_wm_mono rest (st.sync_conv_state cs)
        simp only [List.foldl_cons]
        omega
      · have hknown : ∀ x ∈ rest,
            (pyDictGet (st.sync_conv_state c).conv_dict x.conversation_id).isSome :=
          fun x hx => sync_conv_state_keys_mono st c _
            (h x (List.mem_cons_of_mem _ hx))
        simpa using ih (st.sync_conv_state c) hknown cs hcs2 e he

theorem eventsOf_update_meta (st : ConversationList) (cid : String)
    (conv : Conversation) (cc : ClientConversation)
    (h : pyDictGet st.conv_dict cid = some conv) :
    ∀ k, ConversationList.eventsOf
        { st with conv_dict := pyDictSet st.conv_dict cid (conv.update_conversation cc) } k
      = st.eventsOf k := by
  intro k
  by_cases hk : k = cid
  · subst hk
    simp [ConversationList.eventsOf, pyDictGet_set_eq, h,
          Conversation.update_conversation]
  · simp [ConversationList.eventsOf, pyDictGet_set_ne _ _ _ _ hk]

theorem syncApplyFold_noop (css : List ClientConversationState) :
    ∀ st : ConversationList,
      (∀ cs ∈ css, (pyDictGet st.conv_dict cs.conversation_id).isSome
        ∧ ∀ e ∈ cs.event, e.timestamp ≤ st.sync_timestamp) →
      (css.foldl ConversationList.sync_conv_state st).sync_timestamp
          = st.sync_timestamp
      ∧ (css.foldl ConversationList.sync_conv_state st).fired = st.fired
      ∧ ∀ cid, (css.foldl ConversationList.sync_conv_state st).eventsOf cid
          = st.eventsOf cid := by
  induction css with
  | nil => intro st h; simp
  | cons cs rest ih =>
      intro st h
      obtain ⟨hknown, hbound⟩ := h cs (by simp)
      obtain ⟨conv, hconv⟩ := Option.isSome_iff_exists.mp hknown
      have hstep : st.sync_conv_state cs
          = { st with conv_dict := pyDictSet st.conv_dict cs.conversation_id (conv.update_conversation cs.conversation) } := by
        rw [sync_conv_state_known st cs conv hconv]
        exact syncFold_noop cs.event _ hbound
      have hrest : ∀ x ∈ rest,
          (pyDictGet (st.sync_conv_state cs).conv_dict x.conversation_id).isSome
          ∧ ∀ e ∈ x.event, e.timestamp ≤ (st.sync_conv_state cs).sync_timestamp := by
        intro x hx
        obtain ⟨hk, hb⟩ := h x (List.mem_cons_of_mem _ hx)
        refine ⟨sync_conv_state_keys_mono st cs _ hk, ?_⟩
        intro e he
        rw [hstep]
        exact hb e he
      obtain ⟨ihw, ihf, ihe⟩ := ih (st.sync_conv_state cs) hrest
      simp only [List.foldl_cons]
      refine ⟨?_, ?_, ?_⟩
      · rw [ihw, hstep]
      · rw [ihf, hstep]
      · intro cid
        rw [ihe cid, hstep]
        exact eventsOf_update_meta st cs.conversation_id conv cs.conversation hconv cid

/-! ## Helper lemmas: fetch -/

theorem fetchLoop_fail (oracle : Nat → AttemptOutcome) (i rem : Nat)
    (e : Option String) (m : String) (h : attemptError (oracle i) = some m) :
    fetchLoop oracle i (rem + 1) e = fetchLoop oracle (i + 1) rem (some m) := by
  cases ho : oracle i with
  | timeout =>
      rw [ho] at h
      simp only [attemptError, Option.some.injEq] at h
      simp [fetchLoop, ho, h]
  | connError msg =>
      rw [ho] at h
      simp only [attemptError, Option.some.injEq] at h
      simp [fetchLoop, ho, h]
  | response s b =>
      rw [ho] at h
      simp [attemptError] at h

theorem fetchLoop_response (oracle : Nat → AttemptOutcome) (i rem : Nat)
    (e : Option String) (s : Nat) (b : String)
    (h : oracle i = AttemptOutcome.response s b) :
    fetchLoop oracle i (rem + 1) e
      = (if 200 < s ∨ s < 200 then
          FetchResult.networkError
            ("Request return unexpected status: " ++ toString s)
        else FetchResult.ok ⟨s, b⟩, i + 1) := by
  simp [fetchLoop, h]

theorem classify_event (e : ClientEvent) :
    (Conversation.classify e).event = e := by
  unfold Conversation.classify
  split <;> try rfl
  split <;> try rfl
  split <;> rfl

theorem countTs_append_single (l : List ConversationEvent)
    (ce : ConversationEvent) (t : Nat) :
    countTs (l ++ [ce]) t
      = countTs l t + (if ce.event.timestamp = t then 1 else 0) := by
  simp only [countTs, List.filter_append, List.length_append]
  congr 1
  by_cases h : ce.event.timestamp = t <;> simp [h]

/-! ## Claims about the transport (http_utils.fetch) -/

/-- Claim C6: for every request whose every attempt fails with a timeout or
connection-level error, fetch makes exactly 3 attempts in total and then
raises NetworkError carrying the detail of the last error; if an attempt
succeeds with a 200 response (e.g. the 2nd), no further attempts are made
(the result is independent of later oracle outcomes) and fetch returns
normally with no error. -/
theorem claim_C6_retry_budget (o1 o2 : Nat → AttemptOutcome)
    (m0 m1 m2 n0 b : String)
    (h0 : attemptError (o1 0) = some m0)
    (h1 : attemptError (o1 1) = some m1)
    (h2 : attemptError (o1 2) = some m2)
    (g0 : attemptError (o2 0) = some n0)
    (g1 : o2 1 = AttemptOutcome.response 200 b) :
    fetch o1 = (FetchResult.networkError m2, 3)
    ∧ fetch o2 = (FetchResult.ok ⟨200, b⟩, 2)
    ∧ ∀ g : Nat → AttemptOutcome, g 0 = o2 0 → g 1 = o2 1 →
        fetch g = (FetchResult.ok ⟨200, b⟩, 2) := by
  refine ⟨?_, ?_, ?_⟩
  · show fetchLoop o1 0 MAX_RETRIES none = _
    rw [show MAX_RETRIES = 2 + 1 from rfl, fetchLoop_fail o1 0 2 none m0 h0,
        show (2 : Nat) = 1 + 1 from rfl, fetchLoop_fail o1 1 1 (some m0) m1 h1,
        show (1 : Nat) = 0 + 1 from rfl, fetchLoop_fail o1 2 0 (some m1) m2 h2]
    rfl
  · show fetchLoop o2 0 MAX_RETRIES none = _
    rw [show MAX_RETRIES = 2 + 1 from rfl, fetchLoop_fail o2 0 2 none n0 g0,
        show (2 : Nat) = 1 + 1 from rfl, fetchLoop_response o2 1 1 (some n0) 200 b g1]
    simp
  · intro g hg0 hg1
    have hg0e : attemptError (g 0) = some n0 := by rw [hg0]; exact g0
    have hg1e : g 1 = AttemptOutcome.response 200 b := by rw [hg1]; exact g1
    show fetchLoop g 0 MAX_RETRIES none = _
    rw [show MAX_RETRIES = 2 + 1 from rfl, fetchLoop_fail g 0 2 none n0 hg0e,
        show (2 : Nat) = 1 + 1 from rfl, fetchLoop_response g 1 1 (some n0) 200 b hg1e]
    simp

/-- Witness for C6: all three attempts time out yields NetworkError after
3 attempts; a timeout then a 200 response on the 2nd attempt returns the
response after exactly 2 attempts. -/
theorem claim_C6_retry_budget_witness :
    fetch (fun _ => AttemptOutcome.timeout)
        = (FetchResult.networkError "Request timed out", 3)
    ∧ fetch (fun i => if i = 1 then AttemptOutcome.response 200 "body"
        else AttemptOutcome.timeout)
        = (FetchResult.ok ⟨200, "body"⟩, 2) :=
  ⟨(claim_C6_retry_budget (fun _ => AttemptOutcome.timeout)
      (fun i => if i = 1 then AttemptOutcome.response 200 "body"
        else AttemptOutcome.timeout)
      "Request timed out" "Request timed out" "Request timed out"
      "Request timed out" "body" rfl rfl rfl rfl rfl).1,
   (claim_C6_retry_budget (fun _ => AttemptOutcome.timeout)
      (fun i => if i = 1 then AttemptOutcome.response 200 "body"
        else AttemptOutcome.timeout)
      "Request timed out" "Request timed out" "Request timed out"
      "Request timed out" "body" rfl rfl rfl rfl rfl).2.1⟩

/-- Claim C7: once an attempt receives an HTTP response (after any number
of failed attempts still within the budget), fetch succeeds iff the status
is exactly 200; any other status raises NetworkError immediately, with no
further attempt (the attempt count is k + 1 and the result ignores oracle
outcomes past index k). -/
theorem claim_C7_status_acceptance (oracle : Nat → AttemptOutcome)
    (k s : Nat) (b : String) (hk : k < MAX_RETRIES)
    (hf : ∀ i, i < k → attemptError (oracle i) ≠ none)
    (hr : oracle k = AttemptOutcome.response s b) :
    ((fetch oracle).1 = FetchResult.ok ⟨s, b⟩ ↔ s = 200)
    ∧ (s ≠ 200 → (fetch oracle).1
        = FetchResult.networkError
            ("Request return unexpected status: " ++ toString s))
    ∧ (fetch oracle).2 = k + 1
    ∧ ∀ g : Nat → AttemptOutcome, (∀ i, i ≤ k → g i = oracle i) →
        fetch g = fetch oracle := by
  have key : ∀ h : Nat → AttemptOutcome, (∀ i, i ≤ k → h i = oracle i) →
      fetch h = (if 200 < s ∨ s < 200 then
          FetchResult.networkError
            ("Request return unexpected status: " ++ toString s)
        else FetchResult.ok ⟨s, b⟩, k + 1) := by
    intro h hagree
    have hhr : h k = AttemptOutcome.response s b := by
      rw [hagree k (Nat.le_refl k)]; exact hr
    have hhf : ∀ i, i < k → attemptError (h i) ≠ none := by
      intro i hi
      rw [hagree i (Nat.le_of_lt hi)]
      exact hf i hi
    show fetchLoop h 0 MAX_RETRIES none = _
    rw [show MAX_RETRIES = 3 from rfl] at hk ⊢
    interval_cases k
    · rw [show (3 : Nat) = 2 + 1 from rfl, fetchLoop_response h 0 2 none s b hhr]
    · obtain ⟨q0, hq0⟩ := Option.ne_none_iff_exists.mp (hhf 0 (by omega))
      rw [show (3 : Nat) = 2 + 1 from rfl, fetchLoop_fail h 0 2 none q0 hq0.symm,
          show (2 : Nat) = 1 + 1 from rfl,
          fetchLoop_response h 1 1 (some q0) s b hhr]
    · obtain ⟨q0, hq0⟩ := Option.ne_none_iff_exists.mp (hhf 0 (by omega))
      obtain ⟨q1, hq1⟩ := Option.ne_none_iff_exists.mp (hhf 1 (by omega))
      rw [show (3 : Nat) = 2 + 1 from rfl, fetchLoop_fail h 0 2 none q0 hq0.symm,
          show (2 : Nat) = 1 + 1 from rfl,
          fetchLoop_fail h 1 1 (some q0) q1 hq1.symm,
          show (1 : Nat) = 0 + 1 from rfl,
          fetchLoop_response h 2 0 (some q1) s b hhr]
  have hself := key oracle (fun i _ => rfl)
  refine ⟨?_, ?_, ?_, ?_⟩
  · constructor
    · intro hok
      by_contra hne
      rw [hself] at hok
      have : (200 < s ∨ s < 200) := by omega
      simp [this] at hok
    · intro hs
      subst hs
      rw [hself]
      simp
  · intro hs
    rw [hself]
    have : (200 < s ∨ s < 200) := by omega
    simp [this]
  · rw [hself]
  · intro g hg
    rw [hself, key g hg]

/-- Witness for C7: a connection error then a 404 response gives an
immediate NetworkError with exactly 2 attempts made. -/
theorem claim_C7_status_acceptance_witness :
    ((fetch (fun i => if i = 0 then AttemptOutcome.connError "refused"
        else AttemptOutcome.response 404 "nope")).1
      = FetchResult.ok ⟨404, "nope"⟩ ↔ (404 : Nat) = 200)
    ∧ (fetch (fun i => if i = 0 then AttemptOutcome.connError "refused"
        else AttemptOutcome.response 404 "nope")).2 = 2 :=
  ⟨(claim_C7_status_acceptance
      (fun i => if i = 0 then AttemptOutcome.connError "refused"
        else AttemptOutcome.response 404 "nope") 1 404 "nope"
      (by decide)
      (by intro i hi; interval_cases i; simp [attemptError])
      (by simp)).1,
   (claim_C7_status_acceptance
      (fun i => if i = 0 then AttemptOutcome.connError "refused"
        else AttemptOutcome.response 404 "nope") 1 404 "nope"
      (by decide)
      (by intro i hi; interval_cases i; simp [attemptError])
      (by simp)).2.2.1⟩

/-! ## Claims about the conversation store and synchronizer -/

/-- Claim C1 counterexample: conversation c1 is known with watermark 0; a
push delivers E1 at timestamp 2, then a resync response for c1 lists E1
and the older E0 at timestamp 1.  After the resync, E0 appears 0 times in
the log (the claim requires exactly once): pushing E1 advanced the
watermark to 2, so the resync filter skips E0 entirely. -/
theorem claim_C1_counterexample :
    countTs ((((ConversationList.seed
        [⟨"c1", ⟨"c1", none, 0, []⟩, []⟩] 0).on_client_event
          ⟨"c1", 2, some (), none, none⟩).sync_apply
        ⟨[⟨"c1", ⟨"c1", none, 0, []⟩,
           [⟨"c1", 2, some (), none, none⟩,
            ⟨"c1", 1, some (), none, none⟩]⟩]⟩).eventsOf "c1") 1 = 0
    ∧ countTs ((((ConversationList.seed
        [⟨"c1", ⟨"c1", none, 0, []⟩, []⟩] 0).on_client_event
          ⟨"c1", 2, some (), none, none⟩).sync_apply
        ⟨[⟨"c1", ⟨"c1", none, 0, []⟩,
           [⟨"c1", 2, some (), none, none⟩,
            ⟨"c1", 1, some (), none, none⟩]⟩]⟩).eventsOf "c1") 2 = 1 := by
  decide

/-- Claim C1 (amended): given a push-delivered event E1 into a known
conversation followed by a resync response for that conversation listing
E1 and an older event E0, after the resync the log contains E1 exactly
once and E0 not at all: the push advanced the watermark to E1's timestamp,
so the resync filter (timestamp strictly greater than the watermark) skips
both listed events. -/
theorem claim_C1_amended (st : ConversationList) (cid : String)
    (conv : Conversation) (cc : ClientConversation) (e1 e0 : ClientEvent)
    (hknown : pyDictGet st.conv_dict cid = some conv)
    (hcid : e1.conversation_id = cid)
    (hlt : e0.timestamp < e1.timestamp) :
    ((st.on_client_event e1).sync_apply ⟨[⟨cid, cc, [e1, e0]⟩]⟩).eventsOf cid
        = st.eventsOf cid ++ [Conversation.classify e1]
    ∧ countTs
        (((st.on_client_event e1).sync_apply ⟨[⟨cid, cc, [e1, e0]⟩]⟩).eventsOf cid)
        e0.timestamp
      = countTs (st.eventsOf cid) e0.timestamp := by
  subst hcid
  have hoce := on_client_event_known st e1 conv hknown
  have hget1 : pyDictGet (st.on_client_event e1).conv_dict e1.conversation_id
      = some (conv.add_event e1).1 := by
    rw [hoce]
    exact pyDictGet_set_eq st.conv_dict e1.conversation_id (conv.add_event e1).1
  have happly : (st.on_client_event e1).sync_apply
        ⟨[⟨e1.conversation_id, cc, [e1, e0]⟩]⟩
      = (st.on_client_event e1).sync_conv_state
          ⟨e1.conversation_id, cc, [e1, e0]⟩ := by
    simp [ConversationList.sync_apply]
  have hsk := sync_conv_state_known (st.on_client_event e1)
    ⟨e1.conversation_id, cc, [e1, e0]⟩ (conv.add_event e1).1 hget1
  have hwm1 : (st.on_client_event e1).sync_timestamp = e1.timestamp :=
    on_client_event_sync_timestamp st e1
  have hnoop : ([e1, e0].foldl ConversationList.syncStep
      { st.on_client_event e1 with conv_dict := pyDictSet (st.on_client_event e1).conv_dict e1.conversation_id (((conv.add_event e1).1).update_conversation cc) })
      = { st.on_client_event e1 with conv_dict := pyDictSet (st.on_client_event e1).conv_dict e1.conversation_id (((conv.add_event e1).1).update_conversation cc) } := by
    apply syncFold_noop
    intro e he
    simp only [List.mem_cons, List.mem_singleton, List.not_mem_nil, or_false] at he
    rcases he with rfl | rfl <;> simp [hwm1] <;> try omega
  have hfinal : (st.on_client_event e1).sync_apply
        ⟨[⟨e1.conversation_id, cc, [e1, e0]⟩]⟩
      = { st.on_client_event e1 with conv_dict := pyDictSet (st.on_client_event e1).conv_dict e1.conversation_id (((conv.add_event e1).1).update_conversation cc) } := by
    rw [happly, hsk, hnoop]
  have hlog : (((st.on_client_event e1).sync_apply
        ⟨[⟨e1.conversation_id, cc, [e1, e0]⟩]⟩).eventsOf e1.conversation_id)
      = st.eventsOf e1.conversation_id ++ [Conversation.classify e1] := by
    rw [hfinal]
    simp [ConversationList.eventsOf, pyDictGet_set_eq,
          Conversation.update_conversation, Conversation.add_event, hget1,
          hknown]
  refine ⟨hlog, ?_⟩
  rw [hlog, countTs_append_single]
  have : (Conversation.classify e1).event.timestamp = e1.timestamp := by
    rw [classify_event]
  rw [this]
  have hne : ¬ e1.timestamp = e0.timestamp := by omega
  simp [hne]

/-- Witness for the amended C1: one known conversation with empty log and
watermark 0; push at timestamp 2, resync listing timestamps 2 and 1 gives
a log holding exactly the pushed event. -/
theorem claim_C1_amended_witness :
    (((ConversationList.seed [⟨"c1", ⟨"c1", none, 0, []⟩, []⟩] 0).on_client_event
        ⟨"c1", 2, some (), none, none⟩).sync_apply
      ⟨[⟨"c1", ⟨"c1", none, 0, []⟩,
         [⟨"c1", 2, some (), none, none⟩,
          ⟨"c1", 1, some (), none, none⟩]⟩]⟩).eventsOf "c1"
      = (ConversationList.seed [⟨"c1", ⟨"c1", none, 0, []⟩, []⟩] 0).eventsOf "c1"
        ++ [Conversation.classify ⟨"c1", 2, some (), none, none⟩] :=
  (claim_C1_amended (ConversationList.seed [⟨"c1", ⟨"c1", none, 0, []⟩, []⟩] 0)
    "c1" ⟨⟨"c1", none, 0, []⟩, []⟩ ⟨"c1", none, 0, []⟩
    ⟨"c1", 2, some (), none, none⟩ ⟨"c1", 1, some (), none, none⟩
    (by decide) rfl (by decide)).1

/-- Claim C2 counterexample: conversation c1 known, watermark 0 at the
time of the resync call; the response lists events at timestamps 2 then 1.
Both exceed the call-time watermark 0, so the claim requires both to be
routed; but the code compares against the advancing watermark, so after
applying the timestamp-2 event the timestamp-1 event is skipped (0 events
at timestamp 1 in the log, and only the timestamp-2 event fired). -/
theorem claim_C2_counterexample :
    (ConversationList.seed [⟨"c1", ⟨"c1", none, 0, []⟩, []⟩] 0).sync_timestamp < 1
    ∧ countTs (((ConversationList.seed
        [⟨"c1", ⟨"c1", none, 0, []⟩, []⟩] 0).sync_apply
        ⟨[⟨"c1", ⟨"c1", none, 0, []⟩,
           [⟨"c1", 2, some (), none, none⟩,
            ⟨"c1", 1, some (), none, none⟩]⟩]⟩).eventsOf "c1") 1 = 0
    ∧ ((ConversationList.seed [⟨"c1", ⟨"c1", none, 0, []⟩, []⟩] 0).sync_apply
        ⟨[⟨"c1", ⟨"c1", none, 0, []⟩,
           [⟨"c1", 2, some (), none, none⟩,
            ⟨"c1", 1, some (), none, none⟩]⟩]⟩).fired
      = [Conversation.classify ⟨"c1", 2, some (), none, none⟩] := by
  decide

/-- Claim C2 (amended): for a known conversation, the resync filter
compares each event against the current watermark, which advances to each
applied event's timestamp during the loop itself; hence a returned event
is routed through the event-notification branch if and only if its
timestamp strictly exceeds both the watermark at call time and the
timestamps of all events listed before it (so the outcome depends on the
order of the response list). -/
theorem claim_C2_amended (st : ConversationList) (cid : String)
    (conv : Conversation) (cc : ClientConversation)
    (pre : List ClientEvent) (e : ClientEvent)
    (hknown : pyDictGet st.conv_dict cid = some conv)
    (hpre : ∀ x ∈ pre, x.conversation_id = cid)
    (he : e.conversation_id = cid) :
    ((st.sync_timestamp < e.timestamp ∧ ∀ x ∈ pre, x.timestamp < e.timestamp) →
      (st.sync_apply ⟨[⟨cid, cc, pre ++ [e]⟩]⟩).fired
        = (st.sync_apply ⟨[⟨cid, cc, pre⟩]⟩).fired ++ [Conversation.classify e])
    ∧ (¬(st.sync_timestamp < e.timestamp ∧ ∀ x ∈ pre, x.timestamp < e.timestamp) →
      (st.sync_apply ⟨[⟨cid, cc, pre ++ [e]⟩]⟩).fired
        = (st.sync_apply ⟨[⟨cid, cc, pre⟩]⟩).fired) := by
  have hfired : ∀ evs : List ClientEvent, (∀ x ∈ evs, x.conversation_id = cid) →
      (st.sync_apply ⟨[⟨cid, cc, evs⟩]⟩).fired
        = st.fired
          ++ (recordFilter st.sync_timestamp evs).map Conversation.classify := by
    intro evs hevs
    have happly : st.sync_apply ⟨[⟨cid, cc, evs⟩]⟩
        = st.sync_conv_state ⟨cid, cc, evs⟩ := by
      simp [ConversationList.sync_apply]
    rw [happly, sync_conv_state_known st ⟨cid, cc, evs⟩ conv hknown]
    have hkeys : (pyDictGet
        ({ st with conv_dict := pyDictSet st.conv_dict cid (conv.update_conversation cc) }).conv_dict cid).isSome := by
      simp [pyDictGet_set_eq]
    exact (syncFold_fired evs
      { st with conv_dict := pyDictSet st.conv_dict cid (conv.update_conversation cc) }
      cid hkeys hevs).1
  have hpree : ∀ x ∈ pre ++ [e], x.conversation_id = cid := by
    intro x hx
    rcases List.mem_append.mp hx with hx2 | hx2
    · exact hpre x hx2
    · simp at hx2
      subst hx2
      exact he
  have hbig := hfired (pre ++ [e]) hpree
  have hsmall := hfired pre hpre
  rw [recordFilter_append_single pre st.sync_timestamp e] at hbig
  constructor
  · intro hcond
    have hmax : foldTsMax st.sync_timestamp pre < e.timestamp :=
      (foldTsMax_lt_iff pre st.sync_timestamp e.timestamp).mpr hcond
    rw [hbig, hsmall]
    simp [hmax]
  · intro hcond
    have hmax : ¬ foldTsMax st.sync_timestamp pre < e.timestamp := by
      intro hc
      exact hcond ((foldTsMax_lt_iff pre st.sync_timestamp e.timestamp).mp hc)
    rw [hbig, hsmall]
    simp [hmax]

/-- Witness for the amended C2: known conversation, watermark 0, a single
event at timestamp 1 with no earlier-listed events gets routed and fired. -/
theorem claim_C2_amended_witness :
    ((ConversationList.seed [⟨"c1", ⟨"c1", none, 0, []⟩, []⟩] 0).sync_apply
        ⟨[⟨"c1", ⟨"c1", none, 0, []⟩, [] ++ [⟨"c1", 1, some (), none, none⟩]⟩]⟩).fired
      = ((ConversationList.seed [⟨"c1", ⟨"c1", none, 0, []⟩, []⟩] 0).sync_apply
          ⟨[⟨"c1", ⟨"c1", none, 0, []⟩, []⟩]⟩).fired
        ++ [Conversation.classify ⟨"c1", 1, some (), none, none⟩] :=
  (claim_C2_amended (ConversationList.seed [⟨"c1", ⟨"c1", none, 0, []⟩, []⟩] 0)
    "c1" ⟨⟨"c1", none, 0, []⟩, []⟩ ⟨"c1", none, 0, []⟩ []
    ⟨"c1", 1, some (), none, none⟩
    (by decide) (by intro x hx; simp at hx) rfl).1
    ⟨by decide, by intro x hx; simp at hx⟩

/-- Claim C3 counterexample: an empty store with watermark 0 receives a
resync response creating conversation cA fresh with one event at
timestamp 5 (which does not advance the watermark); applying the same
response a second time finds cA known and the event above the watermark,
so it is appended again: the log then holds the event twice. -/
theorem claim_C3_counterexample :
    ((((⟨[], 0, [], []⟩ : ConversationList).sync_apply
        ⟨[⟨"cA", ⟨"cA", none, 0, []⟩, [⟨"cA", 5, some (), none, none⟩]⟩]⟩).sync_apply
        ⟨[⟨"cA", ⟨"cA", none, 0, []⟩, [⟨"cA", 5, some (), none, none⟩]⟩]⟩).eventsOf "cA")
      = [Conversation.classify ⟨"cA", 5, some (), none, none⟩,
         Conversation.classify ⟨"cA", 5, some (), none, none⟩]
    ∧ countTs ((((⟨[], 0, [], []⟩ : ConversationList).sync_apply
        ⟨[⟨"cA", ⟨"cA", none, 0, []⟩, [⟨"cA", 5, some (), none, none⟩]⟩]⟩).sync_apply
        ⟨[⟨"cA", ⟨"cA", none, 0, []⟩, [⟨"cA", 5, some (), none, none⟩]⟩]⟩).eventsOf "cA") 5
      = 2 := by
  decide

/-- Claim C3 (amended): resync application is idempotent provided every
conversation in the response is already known before the first
application: the second application then appends no event to any log,
fires nothing, and leaves the watermark unchanged.  (For conversations
created fresh by the first application the code appends their events
without advancing the watermark, so a second application can duplicate
them, as the counterexample shows.) -/
theorem claim_C3_amended (st : ConversationList) (res : SyncResponse)
    (h : ∀ cs ∈ res.conversation_state,
      (pyDictGet st.conv_dict cs.conversation_id).isSome) :
    (∀ cid, ((st.sync_apply res).sync_apply res).eventsOf cid
        = (st.sync_apply res).eventsOf cid)
    ∧ ((st.sync_apply res).sync_apply res).fired = (st.sync_apply res).fired
    ∧ ((st.sync_apply res).sync_apply res).sync_timestamp
        = (st.sync_apply res).sync_timestamp := by
  have hpass2 : ∀ cs ∈ res.conversation_state,
      (pyDictGet (st.sync_apply res).conv_dict cs.conversation_id).isSome
      ∧ ∀ e ∈ cs.event, e.timestamp ≤ (st.sync_apply res).sync_timestamp := by
    intro cs hcs
    refine ⟨syncApplyFold_keys_mono res.conversation_state st _ (h cs hcs), ?_⟩
    intro e he
    exact syncApplyFold_bound res.conversation_state st h cs hcs e he
  obtain ⟨hw, hf, he⟩ :=
    syncApplyFold_noop res.conversation_state (st.sync_apply res) hpass2
  exact ⟨he, hf, hw⟩

/-- Witness for the amended C3: conversation c1 known with watermark 0; a
response carrying one event at timestamp 3 applied twice leaves the log of
every conversation as after the first application. -/
theorem claim_C3_amended_witness :
    ((((ConversationList.seed [⟨"c1", ⟨"c1", none, 0, []⟩, []⟩] 0).sync_apply
        ⟨[⟨"c1", ⟨"c1", none, 0, []⟩, [⟨"c1", 3, some (), none, none⟩]⟩]⟩).sync_apply
        ⟨[⟨"c1", ⟨"c1", none, 0, []⟩, [⟨"c1", 3, some (), none, none⟩]⟩]⟩).eventsOf "c1")
      = (((ConversationList.seed [⟨"c1", ⟨"c1", none, 0, []⟩, []⟩] 0).sync_apply
        ⟨[⟨"c1", ⟨"c1", none, 0, []⟩, [⟨"c1", 3, some (), none, none⟩]⟩]⟩).eventsOf "c1") :=
  (claim_C3_amended (ConversationList.seed [⟨"c1", ⟨"c1", none, 0, []⟩, []⟩] 0)
    ⟨[⟨"c1", ⟨"c1", none, 0, []⟩, [⟨"c1", 3, some (), none, none⟩]⟩]⟩
    (by intro cs hcs; simp at hcs; subst hcs; decide)).1 "c1"

/-- Claim C4 counterexample: with the watermark at 5, a push event with
timestamp 3 moves the watermark backwards to 3 (not monotone); and a
conversation created fresh (as during seeding or resync) appends an event
with timestamp 9 while the watermark stays 5, so an appended event can
exceed the watermark at the moment its application completes. -/
theorem claim_C4_counterexample :
    ((ConversationList.seed [⟨"c1", ⟨"c1", none, 0, []⟩, []⟩] 5).on_client_event
        ⟨"c1", 3, some (), none, none⟩).sync_timestamp = 3
    ∧ (ConversationList.seed [⟨"c1", ⟨"c1", none, 0, []⟩, []⟩] 5).sync_timestamp = 5
    ∧ ((ConversationList.seed [⟨"c1", ⟨"c1", none, 0, []⟩, []⟩] 5).add_conversation
        ⟨"cB", none, 0, []⟩ [⟨"cB", 9, some (), none, none⟩]).sync_timestamp = 5
    ∧ countTs (((ConversationList.seed [⟨"c1", ⟨"c1", none, 0, []⟩, []⟩] 5).add_conversation
        ⟨"cB", none, 0, []⟩ [⟨"cB", 9, some (), none, none⟩]).eventsOf "cB") 9 = 1 := by
  decide

/-- Claim C4 (amended): the watermark is not monotone: the push branch
sets it to the incoming event's timestamp unconditionally, so it can move
backwards.  What does hold: an event appended through the push
event-notification branch has timestamp equal to (hence at most) the
watermark at the moment its application completes; conversation creation
(seeding or the fresh-conversation resync path) never changes the
watermark, so the events it appends are not covered by the watermark; and
a resync application never moves the watermark backwards. -/
theorem claim_C4_amended (st : ConversationList) (e : ClientEvent)
    (conv : Conversation)
    (hknown : pyDictGet st.conv_dict e.conversation_id = some conv) :
    (∀ (st2 : ConversationList) (e2 : ClientEvent),
        (st2.on_client_event e2).sync_timestamp = e2.timestamp)
    ∧ ((st.on_client_event e).eventsOf e.conversation_id
        = st.eventsOf e.conversation_id ++ [Conversation.classify e]
      ∧ (Conversation.classify e).event.timestamp
          ≤ (st.on_client_event e).sync_timestamp)
    ∧ (∀ (st2 : ConversationList) (cc : ClientConversation)
        (evs : List ClientEvent),
        (st2.add_conversation cc evs).sync_timestamp = st2.sync_timestamp)
    ∧ (∀ (st2 : ConversationList) (res : SyncResponse),
        st2.sync_timestamp ≤ (st2.sync_apply res).sync_timestamp) := by
  refine ⟨fun st2 e2 => on_client_event_sync_timestamp st2 e2, ⟨?_, ?_⟩, ?_, ?_⟩
  · exact eventsOf_on_client_event_known st e conv hknown
  · rw [classify_event, on_client_event_sync_timestamp]
  · intro st2 cc evs
    simp [ConversationList.add_conversation]
  · intro st2 res
    exact syncApplyFold_wm_mono res.conversation_state st2

/-- Witness for the amended C4 at a concrete store: conversation c1 known
with watermark 5 receiving a push at timestamp 3. -/
theorem claim_C4_amended_witness :
    ((ConversationList.seed [⟨"c1", ⟨"c1", none, 0, []⟩, []⟩] 5).on_client_event
        ⟨"c1", 3, some (), none, none⟩).eventsOf "c1"
      = (ConversationList.seed [⟨"c1", ⟨"c1", none, 0, []⟩, []⟩] 5).eventsOf "c1"
        ++ [Conversation.classify ⟨"c1", 3, some (), none, none⟩] :=
  (claim_C4_amended (ConversationList.seed [⟨"c1", ⟨"c1", none, 0, []⟩, []⟩] 5)
    ⟨"c1", 3, some (), none, none⟩ ⟨⟨"c1", none, 0, []⟩, []⟩ (by decide)).2.1.1

/-- Claim C5: the push event-notification branch sets the watermark to the
incoming event's timestamp unconditionally (no comparison with the current
value); an event for an unknown conversation is dropped without appending
to any log or firing (the KeyError is caught, so nothing is raised) while
the watermark is still set to its timestamp; a typing notification for an
unknown conversation is dropped (the .get default path, nothing raised)
and leaves the whole state, including the watermark, unchanged. -/
theorem claim_C5_push_branch (st : ConversationList) (e : ClientEvent)
    (tn : ClientSetTypingNotification)
    (he : pyDictGet st.conv_dict e.conversation_id = none)
    (htn : pyDictGet st.conv_dict tn.conversation_id = none) :
    (∀ (st2 : ConversationList) (e2 : ClientEvent),
        (st2.on_client_event e2).sync_timestamp = e2.timestamp)
    ∧ st.on_client_event e = { st with sync_timestamp := e.timestamp }
    ∧ st.handle_set_typing_notification tn = st := by
  refine ⟨fun st2 e2 => on_client_event_sync_timestamp st2 e2, ?_, ?_⟩
  · exact on_client_event_unknown st e he
  · simp [ConversationList.handle_set_typing_notification, htn]

/-- Witness for C5: a store knowing only c1 receives an event and a typing
notification for the unknown conversation cX. -/
theorem claim_C5_push_branch_witness :
    (ConversationList.seed [⟨"c1", ⟨"c1", none, 0, []⟩, []⟩] 0).on_client_event
        ⟨"cX", 7, some (), none, none⟩
      = { ConversationList.seed [⟨"c1", ⟨"c1", none, 0, []⟩, []⟩] 0 with
            sync_timestamp := 7 }
    ∧ (ConversationList.seed [⟨"c1", ⟨"c1", none, 0, []⟩, []⟩] 0).handle_set_typing_notification
        ⟨"cX", 1⟩
      = ConversationList.seed [⟨"c1", ⟨"c1", none, 0, []⟩, []⟩] 0 :=
  ⟨(claim_C5_push_branch (ConversationList.seed [⟨"c1", ⟨"c1", none, 0, []⟩, []⟩] 0)
      ⟨"cX", 7, some (), none, none⟩ ⟨"cX", 1⟩ (by decide) (by decide)).2.1,
   (claim_C5_push_branch (ConversationList.seed [⟨"c1", ⟨"c1", none, 0, []⟩, []⟩] 0)
      ⟨"cX", 7, some (), none, none⟩ ⟨"cX", 1⟩ (by decide) (by decide)).2.2⟩

/-- Claim C10: a state update with several populated branches is processed
branch by branch in the fixed order conversation-snapshot, then
typing-notification, then event-notification; in particular an update
carrying a snapshot for an unknown conversation together with an event for
that conversation first creates the conversation and then appends and
fires the event instead of dropping it. -/
theorem claim_C10_state_update_order (st : ConversationList)
    (cc : ClientConversation) (e : ClientEvent)
    (hunknown : pyDictGet st.conv_dict cc.conversation_id = none)
    (hcid : e.conversation_id = cc.conversation_id) :
    (∀ (st2 : ConversationList) (cc2 : ClientConversation)
        (tn2 : ClientSetTypingNotification) (e2 : ClientEvent),
        st2.on_state_update ⟨some cc2, some tn2, some e2⟩
          = ((st2.handle_client_conversation cc2).handle_set_typing_notification
              tn2).on_client_event e2)
    ∧ (st.on_state_update ⟨some cc, none, some e⟩).eventsOf cc.conversation_id
        = [Conversation.classify e]
    ∧ (st.on_state_update ⟨some cc, none, some e⟩).fired
        = st.fired ++ [Conversation.classify e] := by
  have hupdate : st.on_state_update ⟨some cc, none, some e⟩
      = (st.handle_client_conversation cc).on_client_event e := rfl
  have hcreate : st.handle_client_conversation cc = st.add_conversation cc [] := by
    simp [ConversationList.handle_client_conversation, hunknown]
  have hconv0 : Conversation.init cc [] = ⟨cc, []⟩ := rfl
  have hget : pyDictGet (st.add_conversation cc []).conv_dict e.conversation_id
      = some ⟨cc, []⟩ := by
    rw [hcid]
    simp [ConversationList.add_conversation, hconv0, pyDictGet_set_eq]
  have hoce := on_client_event_known (st.add_conversation cc []) e ⟨cc, []⟩ hget
  refine ⟨fun st2 cc2 tn2 e2 => rfl, ?_, ?_⟩
  · rw [hupdate, hcreate, ← hcid]
    rw [eventsOf_on_client_event_known (st.add_conversation cc []) e ⟨cc, []⟩ hget]
    have : (st.add_conversation cc []).eventsOf e.conversation_id = [] := by
      simp [ConversationList.eventsOf, hget]
    rw [this]
    simp
  · rw [hupdate, hcreate, hoce]
    simp [ConversationList.add_conversation, add_event_snd]

/-- Witness for C10: empty store; one update carries both a snapshot for
cN and an event for cN; the conversation is created and the event lands in
its log and is fired. -/
theorem claim_C10_state_update_order_witness :
    ((⟨[], 0, [], []⟩ : ConversationList).on_state_update
        ⟨some ⟨"cN", none, 0, []⟩, none, some ⟨"cN", 4, some (), none, none⟩⟩).eventsOf "cN"
      = [Conversation.classify ⟨"cN", 4, some (), none, none⟩] :=
  (claim_C10_state_update_order (⟨[], 0, [], []⟩ : ConversationList)
    ⟨"cN", none, 0, []⟩ ⟨"cN", 4, some (), none, none⟩ (by decide) rfl).2.1

/-! ## Claims about the client (cookies and bootstrap) -/

/-- Claim C8 counterexample: a cookie set holding SAPISID, HSID, SSID and
APISID but no SID.  The request fails before any network attempt (the
oracle would deliver an immediate 200), but with the builtin generic
KeyError raised by Client._get_cookie, not with a distinct
MissingCredentialError: no such error class exists in the code. -/
theorem claim_C8_counterexample :
    Client.request
        [("SAPISID", "v1"), ("HSID", "v2"), ("SSID", "v3"), ("APISID", "v4")]
        (fun _ => AttemptOutcome.response 200 "ok")
      = Except.error (PyError.keyError "Cookie SID is required") := by
  rfl

/-- Claim C8 (amended): if any of the five required session cookies is
absent, Client._request raises the generic KeyError produced by
Client._get_cookie (carrying the cookie name), before any network attempt:
the result does not depend on the network oracle at all, so the failure is
never retried. -/
theorem claim_C8_amended (cookies : List (String × String))
    (oracle : Nat → AttemptOutcome)
    (h : ∃ n ∈ required_cookies, pyDictGet cookies n = none) :
    (∃ m, Client.request cookies oracle = Except.error (PyError.keyError m))
    ∧ ∀ oracle2 : Nat → AttemptOutcome,
        Client.request cookies oracle = Client.request cookies oracle2 := by
  obtain ⟨n, hn, hnone⟩ := h
  have hn5 : n = "SAPISID" ∨ n = "HSID" ∨ n = "SSID" ∨ n = "APISID"
      ∨ n = "SID" := by
    simpa [required_cookies] using hn
  cases hS : pyDictGet cookies "SAPISID" with
  | none =>
      refine ⟨⟨"Cookie SAPISID is required", ?_⟩, fun o2 => ?_⟩ <;>
        simp [Client.request, Client.get_authorization_header,
              Client.get_cookie, Bind.bind, Except.bind, hS]
  | some vS =>
    cases hH : pyDictGet cookies "HSID" with
    | none =>
        refine ⟨⟨"Cookie HSID is required", ?_⟩, fun o2 => ?_⟩ <;>
          simp [Client.request, Client.get_authorization_header,
                Client.get_cookie, Bind.bind, Except.bind, hS, hH]
    | some vH =>
      cases hSS : pyDictGet cookies "SSID" with
      | none =>
          refine ⟨⟨"Cookie SSID is required", ?_⟩, fun o2 => ?_⟩ <;>
            simp [Client.request, Client.get_authorization_header,
                  Client.get_cookie, Bind.bind, Except.bind, hS, hH, hSS]
      | some vSS =>
        cases hA : pyDictGet cookies "APISID" with
        | none =>
            refine ⟨⟨"Cookie APISID is required", ?_⟩, fun o2 => ?_⟩ <;>
              simp [Client.request, Client.get_authorization_header,
                    Client.get_cookie, Bind.bind, Except.bind, hS, hH, hSS, hA]
        | some vA =>
          cases hD : pyDictGet cookies "SID" with
          | none =>
              refine ⟨⟨"Cookie SID is required", ?_⟩, fun o2 => ?_⟩ <;>
                simp [Client.request, Client.get_authorization_header,
                      Client.get_cookie, Bind.bind, Except.bind,
                      hS, hH, hSS, hA, hD]
          | some vD =>
              exfalso
              rcases hn5 with rfl | rfl | rfl | rfl | rfl
              · rw [hS] at hnone; exact Option.noConfusion hnone
              · rw [hH] at hnone; exact Option.noConfusion hnone
              · rw [hSS] at hnone; exact Option.noConfusion hnone
              · rw [hA] at hnone; exact Option.noConfusion hnone
              · rw [hD] at hnone; exact Option.noConfusion hnone

/-- Witness for the amended C8: the cookie set missing HSID fails with a
KeyError regardless of the network oracle. -/
theorem claim_C8_amended_witness :
    ∃ m, Client.request [("SAPISID", "v1")] (fun _ => AttemptOutcome.timeout)
      = Except.error (PyError.keyError m) :=
  (claim_C8_amended [("SAPISID", "v1")] (fun _ => AttemptOutcome.timeout)
    ⟨"HSID", by simp [required_cookies], by decide⟩).1

/-- Claim C9 counterexample: a decoded bootstrap document holding every
namespace except the optional contact-entity namespace ds:21.  Because the
required snapshot watermark is extracted from ds:21 as well, the required
extraction block raises KeyError and bootstrap fails with HangupsError
instead of succeeding with an empty entity set. -/
theorem claim_C9_counterexample :
    Client.init_chat
        [("ds:7", JsVal.arr [JsVal.arr [JsVal.null, JsVal.null,
            JsVal.str "APIKEY"]]),
         ("ds:2", JsVal.arr [JsVal.arr [JsVal.null, JsVal.null, JsVal.null,
            JsVal.null, JsVal.str "DATE", JsVal.null, JsVal.str "VER"]]),
         ("ds:4", JsVal.arr [JsVal.arr [JsVal.null, JsVal.str "PATH",
            JsVal.null, JsVal.null, JsVal.str "EC", JsVal.str "PROP",
            JsVal.null, JsVal.str "HID"]]),
         ("ds:20", JsVal.arr [JsVal.null]),
         ("ds:19", JsVal.arr [JsVal.arr [JsVal.null, JsVal.null, JsVal.null,
            JsVal.arr []]])]
        (fun _ => Except.ok 0) (fun _ => Except.ok [])
        (fun _ => Except.ok ⟨[], [], [], [], [], []⟩)
      = Except.error
          (PyError.hangupsError "Failed to get initialize chat value: ds:21") := by
  rfl

/-- Claim C9 (amended): when every required positional extraction succeeds
(which requires namespace ds:21 to be present, since the snapshot
watermark is read from it) and the self-info and conversation-state
decodes succeed, a failure of the optional contact-entity schema decode is
non-fatal: bootstrap still succeeds with an empty contact-entity set and
the extracted watermark. -/
theorem claim_C9_amended (dd : List (String × JsVal))
    (selfParse : JsVal → Except String Nat)
    (convParse : JsVal → Except String (List ClientConversationState))
    (entParse : JsVal → Except String ClientEntities)
    (req : RequiredChatValues) (v200 v1903 v210 : JsVal) (se : Nat)
    (css : List ClientConversationState) (m : String)
    (hreq : extractRequired dd = Except.ok req)
    (h20 : jsPath dd "ds:20" [0] = Except.ok v200)
    (hself : selfParse v200 = Except.ok se)
    (h19 : jsPath dd "ds:19" [0, 3] = Except.ok v1903)
    (hconv : convParse v1903 = Except.ok css)
    (h21 : jsPath dd "ds:21" [0] = Except.ok v210)
    (hent : entParse v210 = Except.error m) :
    Client.init_chat dd selfParse convParse entParse
      = Except.ok ⟨css, se, [],
          css.foldl (fun acc cs => acc ++ cs.conversation.participant_data) [],
          req.sync_timestamp⟩ := by
  simp [Client.init_chat, Bind.bind, Except.bind, hreq, h20, hself, h19,
        hconv, h21, hent]

/-- Witness for the amended C9: the same document as the counterexample
plus namespace ds:21 carrying the watermark 99, with an entity decoder
that fails: bootstrap succeeds with an empty entity set. -/
theorem claim_C9_amended_witness :
    Client.init_chat
        [("ds:7", JsVal.arr [JsVal.arr [JsVal.null, JsVal.null,
            JsVal.str "APIKEY"]]),
         ("ds:2", JsVal.arr [JsVal.arr [JsVal.null, JsVal.null, JsVal.null,
            JsVal.null, JsVal.str "DATE", JsVal.null, JsVal.str "VER"]]),
         ("ds:4", JsVal.arr [JsVal.arr [JsVal.null, JsVal.str "PATH",
            JsVal.null, JsVal.null, JsVal.str "EC", JsVal.str "PROP",
            JsVal.null, JsVal.str "HID"]]),
         ("ds:20", JsVal.arr [JsVal.null]),
         ("ds:19", JsVal.arr [JsVal.arr [JsVal.null, JsVal.null, JsVal.null,
            JsVal.arr []]]),
         ("ds:21", JsVal.arr [JsVal.arr [JsVal.null,
            JsVal.arr [JsVal.null, JsVal.null, JsVal.null, JsVal.null,
              JsVal.int 99]]])]
        (fun _ => Except.ok 0) (fun _ => Except.ok [])
        (fun _ => Except.error "entity decode failed")
      = Except.ok ⟨[], 0, [], [], 99⟩ :=
  claim_C9_amended _ _ _ _
    ⟨JsVal.str "APIKEY", JsVal.str "DATE", JsVal.str "VER", JsVal.str "HID",
     JsVal.str "PATH", JsVal.str "HID", JsVal.str "EC", JsVal.str "PROP", 99⟩
    JsVal.null (JsVal.arr []) (JsVal.arr [JsVal.null,
      JsVal.arr [JsVal.null, JsVal.null, JsVal.null, JsVal.null,
        JsVal.int 99]]) 0 [] "entity decode failed"
    rfl rfl rfl rfl rfl rfl rfl
